import Mathlib

/-!
Shallow embedding of the mpire-ping-pong simulation core: ball kinematics,
wall reflection, paddle collision response, AI pursuit, scoring detection
and the match state machine, translated from the game source. Real-number
quantities are modelled over the rationals. Vector magnitudes are handled
through squared norms; the square root needed by the first-hit velocity
normalisation is supplied as an explicit length argument (nLen), which
theorems constrain by sq nLen = normSq v and 0 < nLen.
-/

namespace MpirePingPong

/-- Square of a rational, written with multiplication so that all
definitions stay within the basic rational operations. -/
def sq (x : ℚ) : ℚ := x * x

/-- A 3D vector with rational components; x is the horizontal (width) axis,
y the vertical (height) axis, z the depth axis. -/
structure Vec3 where
  x : ℚ
  y : ℚ
  z : ℚ
deriving DecidableEq

/-- Scalar multiplication of a vector, as in multiplyScalar. -/
def smul (c : ℚ) (v : Vec3) : Vec3 := ⟨c * v.x, c * v.y, c * v.z⟩

/-- Squared euclidean norm of a vector; the source compares lengths, which
for nonnegative bounds is equivalent to comparing squared norms. -/
def normSq (v : Vec3) : ℚ := v.x * v.x + v.y * v.y + v.z * v.z

/-- Clamp a rational to the interval from lo to hi, as in
Math.max(lo, Math.min(hi, v)). -/
def clampQ (lo hi v : ℚ) : ℚ := max lo (min hi v)

def TABLE_W : ℚ := 6
def TABLE_D : ℚ := 10
def TABLE_H : ℚ := 15 / 100
def PADDLE_W : ℚ := 12 / 10
def PADDLE_D : ℚ := 25 / 100
def BALL_R : ℚ := 15 / 100
def WIN_SCORE : ℕ := 7
def PLAYER_Z : ℚ := TABLE_D / 2 - 1 / 2
def AI_Z : ℚ := -TABLE_D / 2 + 1 / 2
def BALL_LAUNCH_SPEED : ℚ := 35 / 10

/-- The four difficulty tiers. -/
inductive Difficulty
  | easy
  | medium
  | hard
  | very_hard
deriving DecidableEq

/-- A difficulty profile: AI pursuit gain, rally initial speed, speed cap. -/
structure Profile where
  lerp : ℚ
  speedInit : ℚ
  speedMax : ℚ
deriving DecidableEq

/-- The DIFF table from the source. -/
def DIFF : Difficulty → Profile
  | .easy => ⟨38 / 1000, 8, 18⟩
  | .medium => ⟨75 / 1000, 10, 24⟩
  | .hard => ⟨14 / 100, 13, 30⟩
  | .very_hard => ⟨55 / 100, 16, 38⟩

/-- Playable half-width reachable by the ball centre. -/
def wallX : ℚ := TABLE_W / 2 - BALL_R

/-- Maximal paddle offset for the human paddle. -/
def maxPX : ℚ := TABLE_W / 2 - PADDLE_W / 2

/-- Maximal paddle offset for the AI paddle (same expression in the source). -/
def maxAX : ℚ := TABLE_W / 2 - PADDLE_W / 2

/-- Human paddle target from the normalized pointer coordinate:
amplified by 1.1 and clamped. -/
def playerTarget (ndcx : ℚ) : ℚ :=
  clampQ (-maxPX) maxPX (ndcx * (TABLE_W / 2) * (11 / 10))

/-- Position integration: only the horizontal-plane components move. -/
def integrate (pos vel : Vec3) (dt : ℚ) : Vec3 :=
  ⟨pos.x + vel.x * dt, pos.y, pos.z + vel.z * dt⟩

/-- Side-wall reflection: clamp the x position to the boundary and force the
x velocity to point back inward, exactly as the two ifs of the source. -/
def wallReflect (pos vel : Vec3) : Vec3 × Vec3 :=
  let p1 : Vec3 := if wallX < pos.x then ⟨wallX, pos.y, pos.z⟩ else pos
  let v1 : Vec3 := if wallX < pos.x then ⟨-|vel.x|, vel.y, vel.z⟩ else vel
  if p1.x < -wallX then (⟨-wallX, p1.y, p1.z⟩, ⟨|v1.x|, v1.y, v1.z⟩) else (p1, v1)

/-- One kinematics step: integrate then resolve wall contact. -/
def integrateWall (pos vel : Vec3) (dt : ℚ) : Vec3 × Vec3 :=
  wallReflect (integrate pos vel dt) vel

/-- One AI pursuit update toward ball x position b, then clamp. -/
def aiStep (g b a : ℚ) : ℚ := clampQ (-maxAX) maxAX (a + (b - a) * g)

/-- Iterated AI pursuit against a stationary ball x position b. -/
def aiIter (g b a : ℚ) : ℕ → ℚ
  | 0 => a
  | n + 1 => aiStep g b (aiIter g b a n)

/-- Velocity change of a human-paddle contact before the speed logic:
depth component inverted toward the AI, deflection added on x. -/
def playerDeflect (vel : Vec3) (bx px : ℚ) : Vec3 :=
  ⟨vel.x + ((bx - px) / (PADDLE_W / 2)) * 3, vel.y, -|vel.z|⟩

/-- Velocity change of an AI-paddle contact before the speed logic:
depth component inverted toward the human, deflection added on x. -/
def aiDeflect (vel : Vec3) (bx ax : ℚ) : Vec3 :=
  ⟨vel.x + ((bx - ax) / (PADDLE_W / 2)) * 2, vel.y, |vel.z|⟩

/-- First-contact speed snap: the source normalizes the velocity and scales
it by speedInit; nLen stands for the (irrational, in general) length of v. -/
def firstHitSnap (init nLen : ℚ) (v : Vec3) : Vec3 := smul (init / nLen) v

/-- Rally speed growth: multiply by the growth factor only when the current
speed is strictly below the cap, as in the source's else-if. -/
def rallyGrow (gf cap : ℚ) (v : Vec3) : Vec3 :=
  if normSq v < sq cap then smul gf v else v

/-- Result of a paddle-contact response. -/
structure HitResult where
  vel : Vec3
  posZ : ℚ
  firstHit : Bool
deriving DecidableEq

/-- Human paddle contact response: deflect, then snap on first contact or
apply the gated 1.05 growth, then clamp the depth position outside the
paddle band. -/
def playerHitBody (d : Difficulty) (fh : Bool) (nLen : ℚ) (vel : Vec3) (bx px : ℚ) :
    HitResult :=
  if fh = false then
    ⟨firstHitSnap (DIFF d).speedInit nLen (playerDeflect vel bx px),
      PLAYER_Z - PADDLE_D / 2 - BALL_R, true⟩
  else
    ⟨rallyGrow (21 / 20) (DIFF d).speedMax (playerDeflect vel bx px),
      PLAYER_Z - PADDLE_D / 2 - BALL_R, fh⟩

/-- AI paddle contact response, symmetric with growth factor 1.03. -/
def aiHitBody (d : Difficulty) (fh : Bool) (nLen : ℚ) (vel : Vec3) (bx ax : ℚ) :
    HitResult :=
  if fh = false then
    ⟨firstHitSnap (DIFF d).speedInit nLen (aiDeflect vel bx ax),
      AI_Z + PADDLE_D / 2 + BALL_R, true⟩
  else
    ⟨rallyGrow (103 / 100) (DIFF d).speedMax (aiDeflect vel bx ax),
      AI_Z + PADDLE_D / 2 + BALL_R, fh⟩

/-- Human paddle contact test and response in one step of the loop. -/
def applyPlayerHit (d : Difficulty) (nLen : ℚ) (pos vel : Vec3) (px : ℚ) (fh : Bool) :
    Vec3 × Vec3 × Bool :=
  if 0 < vel.z ∧ PLAYER_Z - PADDLE_D / 2 - BALL_R ≤ pos.z ∧
      pos.z ≤ PLAYER_Z + PADDLE_D / 2 + BALL_R ∧ |pos.x - px| < PADDLE_W / 2 + BALL_R then
    (Vec3.mk pos.x pos.y (playerHitBody d fh nLen vel pos.x px).posZ,
      (playerHitBody d fh nLen vel pos.x px).vel,
      (playerHitBody d fh nLen vel pos.x px).firstHit)
  else
    (pos, vel, fh)

/-- AI paddle contact test and response in one step of the loop. -/
def applyAiHit (d : Difficulty) (nLen : ℚ) (pos vel : Vec3) (ax : ℚ) (fh : Bool) :
    Vec3 × Vec3 × Bool :=
  if vel.z < 0 ∧ pos.z ≤ AI_Z + PADDLE_D / 2 + BALL_R ∧
      AI_Z - PADDLE_D / 2 - BALL_R ≤ pos.z ∧ |pos.x - ax| < PADDLE_W / 2 + BALL_R then
    (Vec3.mk pos.x pos.y (aiHitBody d fh nLen vel pos.x ax).posZ,
      (aiHitBody d fh nLen vel pos.x ax).vel,
      (aiHitBody d fh nLen vel pos.x ax).firstHit)
  else
    (pos, vel, fh)

/-- The match phases of the source state machine. -/
inductive Phase
  | start
  | rules
  | difficulty
  | playing
  | between
  | won
deriving DecidableEq

/-- The two sides that can score. -/
inductive Side
  | player
  | ai
deriving DecidableEq

/-- The per-frame simulation state held in refs by the scene component. -/
structure Scene where
  phase : Phase
  scored : Bool
  ballPos : Vec3
  ballVel : Vec3
  playerX : ℚ
  aiX : ℚ
  firstHit : Bool
deriving DecidableEq

/-- Per-frame external inputs: the raw frame delta, the pointer coordinate,
and the length witnesses for the (at most one) normalisation of the frame. -/
structure FrameInput where
  delta : ℚ
  ndcx : ℚ
  nLenP : ℚ
  nLenA : ℚ
deriving DecidableEq

/-- Scoring test at the end of a frame: past the human side the AI scores,
past the AI side the human scores; otherwise commit the frame silently. -/
def scoreCheck (s : Scene) (px ax : ℚ) (pos vel : Vec3) (fh : Bool) :
    Scene × Option Side :=
  if TABLE_D / 2 + 1 / 2 < pos.z then
    ({ s with scored := true, ballPos := pos, ballVel := vel, playerX := px, aiX := ax, firstHit := fh }, some Side.ai)
  else if pos.z < -(TABLE_D / 2) - 1 / 2 then
    ({ s with scored := true, ballPos := pos, ballVel := vel, playerX := px, aiX := ax, firstHit := fh }, some Side.player)
  else
    ({ s with ballPos := pos, ballVel := vel, playerX := px, aiX := ax, firstHit := fh }, none)

/-- Clamped frame delta. -/
def frameDt (i : FrameInput) : ℚ := min i.delta (5 / 100)

/-- Ball state after integration and wall resolution of a frame. -/
def framePV (i : FrameInput) (s : Scene) : Vec3 × Vec3 :=
  integrateWall s.ballPos s.ballVel (frameDt i)

/-- AI paddle offset after the pursuit update of a frame; it reads the
post-wall ball x position. -/
def frameAx (d : Difficulty) (i : FrameInput) (s : Scene) : ℚ :=
  aiStep (DIFF d).lerp (framePV i s).1.x s.aiX

/-- Ball state after the human-paddle contact test of a frame. -/
def framePH (d : Difficulty) (i : FrameInput) (s : Scene) : Vec3 × Vec3 × Bool :=
  applyPlayerHit d i.nLenP (framePV i s).1 (framePV i s).2 (playerTarget i.ndcx) s.firstHit

/-- Ball state after the AI-paddle contact test of a frame. -/
def frameAH (d : Difficulty) (i : FrameInput) (s : Scene) : Vec3 × Vec3 × Bool :=
  applyAiHit d i.nLenA (framePH d i s).1 (framePH d i s).2.1 (frameAx d i s) (framePH d i s).2.2

/-- One full simulation frame as run by useFrame: a no-op unless the phase
is playing and no score is pending for the current point. -/
def frame (d : Difficulty) (i : FrameInput) (s : Scene) : Scene × Option Side :=
  if s.phase ≠ Phase.playing ∨ s.scored = true then (s, none)
  else
    scoreCheck s (playerTarget i.ndcx) (frameAx d i s)
      (frameAH d i s).1 (frameAH d i s).2.1 (frameAH d i s).2.2

/-- Run a sequence of frames, keeping only the state. -/
def runFrames (d : Difficulty) : List FrameInput → Scene → Scene
  | [], s => s
  | i :: is, s => runFrames d is (frame d i s).1

/-- Render-time synchronisation of the scored guard with the phase prop:
it is cleared exactly when the phase changes to playing. -/
def syncScored (prevPhase phase : Phase) (scored : Bool) : Bool :=
  if prevPhase ≠ phase ∧ phase = Phase.playing then false else scored

/-- Launch deflection angle from the raw random sample r in [0,1). -/
def launchAngle (r : ℚ) : ℚ := (r - 1 / 2) * (1 / 2)

/-- Result of the ball reset procedure. -/
structure ResetResult where
  pos : Vec3
  vel : Vec3
  firstHit : Bool
deriving DecidableEq

/-- The doReset helper: centre the ball at the fixed height and launch it at
the fixed slow speed toward the serving side. The arguments s and c stand
for the sine and cosine of the random launch angle. -/
def doReset (s c : ℚ) (towardPlayer : Bool) : ResetResult :=
  ⟨⟨0, TABLE_H / 2 + BALL_R + 1 / 100, 0⟩,
    ⟨s * BALL_LAUNCH_SPEED, 0, (if towardPlayer then 1 else -1) * c * BALL_LAUNCH_SPEED⟩,
    false⟩

/-- The root component state: phase, scores, winner, the single pending
deferred reset (carrying its serve direction), and the simulation refs the
deferred callback mutates. -/
structure AppState where
  phase : Phase
  playerScore : ℕ
  aiScore : ℕ
  winner : Option Side
  pending : Option Bool
  ball : Vec3
  vel : Vec3
  firstHit : Bool
deriving DecidableEq

/-- The handleScore callback: increment the scorer, go to won at the win
threshold, otherwise enter between and schedule the deferred reset serving
toward the side that conceded. -/
def handleScoreEv (scorer : Side) (st : AppState) : AppState :=
  let p := if scorer = Side.player then st.playerScore + 1 else st.playerScore
  let a := if scorer = Side.ai then st.aiScore + 1 else st.aiScore
  if WIN_SCORE ≤ p then
    { st with playerScore := p, aiScore := a, winner := some Side.player, phase := Phase.won }
  else if WIN_SCORE ≤ a then
    { st with playerScore := p, aiScore := a, winner := some Side.ai, phase := Phase.won }
  else
    { st with playerScore := p, aiScore := a, phase := Phase.between, pending := some (decide (scorer = Side.ai)) }

/-- The MENU button handler: the source only sets the phase back to start
and does not touch the scheduled timeout. -/
def menuClick (st : AppState) : AppState := { st with phase := Phase.start }

/-- Firing of the scheduled between-points timeout: the callback runs
doReset on the refs and sets the phase to playing unconditionally. -/
def timerFire (s c : ℚ) (st : AppState) : AppState :=
  match st.pending with
  | none => st
  | some tp =>
    { st with ball := (doReset s c tp).pos, vel := (doReset s c tp).vel, firstHit := (doReset s c tp).firstHit, phase := Phase.playing, pending := none }

/-- The startGame callback: zero the scores, reset the ball toward the
human side and enter playing. -/
def startGame (s c : ℚ) (st : AppState) : AppState :=
  { st with playerScore := 0, aiScore := 0, winner := none, ball := (doReset s c true).pos, vel := (doReset s c true).vel, firstHit := (doReset s c true).firstHit, phase := Phase.playing }

/-- Squared norm of a scalar multiple. -/
theorem normSq_smul (c : ℚ) (v : Vec3) : normSq (smul c v) = sq c * normSq v := by
  simp only [normSq, smul, sq]
  ring

/-- Every difficulty profile has a positive initial speed. -/
theorem speedInit_pos (d : Difficulty) : 0 < (DIFF d).speedInit := by
  cases d <;> norm_num [DIFF]

/-- Case analysis of the gated rally growth: either the speed was below the
cap and the velocity is scaled by the growth factor (so the squared result
stays under the square of factor times cap), or the velocity is untouched
and the speed was already at or above the cap. -/
theorem rallyGrow_cases (gf cap : ℚ) (v : Vec3) (hgf : 0 < sq gf) :
    (normSq (rallyGrow gf cap v) < sq (gf * cap) ∧ rallyGrow gf cap v = smul gf v) ∨
      (rallyGrow gf cap v = v ∧ sq cap ≤ normSq v) := by
  by_cases h : normSq v < sq cap
  · left
    refine ⟨?_, by rw [rallyGrow, if_pos h]⟩
    rw [rallyGrow, if_pos h, normSq_smul]
    calc sq gf * normSq v < sq gf * sq cap := mul_lt_mul_of_pos_left h hgf
      _ = sq (gf * cap) := by simp only [sq]; ring
  · right
    exact ⟨by rw [rallyGrow, if_neg h], le_of_not_lt h⟩

/-- C1 (amended): a non-first paddle contact multiplies the speed by the
growth factor (1.05 human, 1.03 AI) only when the current speed is strictly
below maxSpeed, and otherwise leaves the velocity unchanged; the result is
gated, not capped, so one multiplication starting below the cap stays below
growthFactor times maxSpeed but may exceed maxSpeed itself. -/
theorem C1_growth_gated (d : Difficulty) (v : Vec3) :
    ((normSq (rallyGrow (21 / 20) (DIFF d).speedMax v) < sq ((21 / 20) * (DIFF d).speedMax) ∧
        rallyGrow (21 / 20) (DIFF d).speedMax v = smul (21 / 20) v) ∨
      (rallyGrow (21 / 20) (DIFF d).speedMax v = v ∧ sq (DIFF d).speedMax ≤ normSq v)) ∧
    ((normSq (rallyGrow (103 / 100) (DIFF d).speedMax v) < sq ((103 / 100) * (DIFF d).speedMax) ∧
        rallyGrow (103 / 100) (DIFF d).speedMax v = smul (103 / 100) v) ∨
      (rallyGrow (103 / 100) (DIFF d).speedMax v = v ∧ sq (DIFF d).speedMax ≤ normSq v)) :=
  ⟨rallyGrow_cases (21 / 20) (DIFF d).speedMax v (by norm_num [sq]),
    rallyGrow_cases (103 / 100) (DIFF d).speedMax v (by norm_num [sq])⟩

/-- C1 counterexample: on easy difficulty (maxSpeed 18), a non-first human
paddle contact at speed 17.5 yields speed 18.375: the growth result is not
capped at maxSpeed, refuting the claimed invariant. -/
theorem C1_not_capped :
    normSq (Vec3.mk 0 0 (35 / 2)) ≤ sq (DIFF Difficulty.easy).speedMax ∧
    sq (DIFF Difficulty.easy).speedMax <
      normSq (playerHitBody Difficulty.easy true 1 (Vec3.mk 0 0 (35 / 2)) 0 0).vel := by
  have habs : |(35 / 2 : ℚ)| = 35 / 2 := abs_of_pos (by norm_num)
  constructor
  · norm_num [normSq, DIFF, sq]
  · norm_num [playerHitBody, playerDeflect, rallyGrow, smul, normSq, DIFF, sq, PADDLE_W, habs]

/-- C2: the source never cancels the scheduled between-points reset when the
user returns to the menu: after a score event followed by the MENU action,
the pending timer still fires, resets the ball and forces the phase back to
playing, contradicting the claim; evaluated here at a concrete match state. -/
theorem C2_menu_abandon_bug :
    (menuClick (handleScoreEv Side.player
        (AppState.mk Phase.playing 0 0 none none (Vec3.mk 0 0 0) (Vec3.mk 0 0 1) false))).phase =
      Phase.start ∧
    (menuClick (handleScoreEv Side.player
        (AppState.mk Phase.playing 0 0 none none (Vec3.mk 0 0 0) (Vec3.mk 0 0 1) false))).pending =
      some false ∧
    (timerFire 0 1 (menuClick (handleScoreEv Side.player
        (AppState.mk Phase.playing 0 0 none none (Vec3.mk 0 0 0) (Vec3.mk 0 0 1) false)))).phase =
      Phase.playing ∧
    (timerFire 0 1 (menuClick (handleScoreEv Side.player
        (AppState.mk Phase.playing 0 0 none none (Vec3.mk 0 0 0) (Vec3.mk 0 0 1) false)))).ball =
      (doReset 0 1 false).pos ∧
    (timerFire 0 1 (menuClick (handleScoreEv Side.player
        (AppState.mk Phase.playing 0 0 none none (Vec3.mk 0 0 0) (Vec3.mk 0 0 1) false)))).vel =
      (doReset 0 1 false).vel :=
  ⟨rfl, rfl, rfl, rfl, rfl⟩

/-- C3: on the first paddle contact of a point (either paddle) the velocity
is snapped to magnitude exactly speedInit of the active difficulty, as a
positive scalar multiple of the deflected velocity (direction preserved),
for every pre-contact velocity whose deflected length nLen is rational. -/
theorem C3_first_hit_snap :
    (∀ (d : Difficulty) (nLen : ℚ) (vel : Vec3) (bx px : ℚ),
        0 < nLen → sq nLen = normSq (playerDeflect vel bx px) →
        normSq (playerHitBody d false nLen vel bx px).vel = sq (DIFF d).speedInit ∧
        ∃ c : ℚ, 0 < c ∧
          (playerHitBody d false nLen vel bx px).vel = smul c (playerDeflect vel bx px)) ∧
    (∀ (d : Difficulty) (nLen : ℚ) (vel : Vec3) (bx ax : ℚ),
        0 < nLen → sq nLen = normSq (aiDeflect vel bx ax) →
        normSq (aiHitBody d false nLen vel bx ax).vel = sq (DIFF d).speedInit ∧
        ∃ c : ℚ, 0 < c ∧
          (aiHitBody d false nLen vel bx ax).vel = smul c (aiDeflect vel bx ax)) := by
  constructor
  · intro d nLen vel bx px hn hsq
    have h0 : nLen ≠ 0 := ne_of_gt hn
    have hbody : (playerHitBody d false nLen vel bx px).vel =
        firstHitSnap (DIFF d).speedInit nLen (playerDeflect vel bx px) := by
      rw [playerHitBody, if_pos rfl]
    refine ⟨?_, (DIFF d).speedInit / nLen, div_pos (speedInit_pos d) hn, ?_⟩
    · rw [hbody, firstHitSnap, normSq_smul, ← hsq]
      field_simp [sq]
    · rw [hbody, firstHitSnap]
  · intro d nLen vel bx ax hn hsq
    have h0 : nLen ≠ 0 := ne_of_gt hn
    have hbody : (aiHitBody d false nLen vel bx ax).vel =
        firstHitSnap (DIFF d).speedInit nLen (aiDeflect vel bx ax) := by
      rw [aiHitBody, if_pos rfl]
    refine ⟨?_, (DIFF d).speedInit / nLen, div_pos (speedInit_pos d) hn, ?_⟩
    · rw [hbody, firstHitSnap, normSq_smul, ← hsq]
      field_simp [sq]
    · rw [hbody, firstHitSnap]

/-- C3 witness: a concrete slow serve of length 3.5 hit first by the human
paddle (and symmetrically by the AI paddle) leaves speed exactly speedInit. -/
theorem C3_first_hit_snap_witness :
    (normSq (playerHitBody Difficulty.easy false (7 / 2) (Vec3.mk 0 0 (7 / 2)) 0 0).vel =
        sq (DIFF Difficulty.easy).speedInit ∧
      ∃ c : ℚ, 0 < c ∧ (playerHitBody Difficulty.easy false (7 / 2) (Vec3.mk 0 0 (7 / 2)) 0 0).vel =
        smul c (playerDeflect (Vec3.mk 0 0 (7 / 2)) 0 0)) ∧
    (normSq (aiHitBody Difficulty.easy false (7 / 2) (Vec3.mk 0 0 (-(7 / 2))) 0 0).vel =
        sq (DIFF Difficulty.easy).speedInit ∧
      ∃ c : ℚ, 0 < c ∧ (aiHitBody Difficulty.easy false (7 / 2) (Vec3.mk 0 0 (-(7 / 2))) 0 0).vel =
        smul c (aiDeflect (Vec3.mk 0 0 (-(7 / 2))) 0 0)) :=
  ⟨C3_first_hit_snap.1 Difficulty.easy (7 / 2) (Vec3.mk 0 0 (7 / 2)) 0 0 (by norm_num)
      (by
        have habs : |(7 / 2 : ℚ)| = 7 / 2 := abs_of_pos (by norm_num)
        norm_num [sq, normSq, playerDeflect, PADDLE_W, habs]),
    C3_first_hit_snap.2 Difficulty.easy (7 / 2) (Vec3.mk 0 0 (-(7 / 2))) 0 0 (by norm_num)
      (by
        have habs : |(-(7 / 2) : ℚ)| = 7 / 2 := by
          rw [abs_neg]
          exact abs_of_pos (by norm_num)
        norm_num [sq, normSq, aiDeflect, PADDLE_W, habs])⟩

/-- C4: whenever the integrated x position leaves the playable band on
either side, the post-step x position is clamped exactly to that boundary
and the x velocity is negated (sign flipped, magnitude unchanged, pointing
back inward); moreover no step ever ends beyond either boundary. The first
two parts assume the pre-step position is inside the band, an invariant of
all reachable states. -/
theorem C4_wall_reflection :
    (∀ (pos vel : Vec3) (dt : ℚ), -wallX ≤ pos.x → pos.x ≤ wallX → 0 ≤ dt →
        wallX < pos.x + vel.x * dt →
        (integrateWall pos vel dt).1.x = wallX ∧
        (integrateWall pos vel dt).2.x = -vel.x ∧ 0 < vel.x) ∧
    (∀ (pos vel : Vec3) (dt : ℚ), -wallX ≤ pos.x → pos.x ≤ wallX → 0 ≤ dt →
        pos.x + vel.x * dt < -wallX →
        (integrateWall pos vel dt).1.x = -wallX ∧
        (integrateWall pos vel dt).2.x = -vel.x ∧ vel.x < 0) ∧
    (∀ (pos vel : Vec3) (dt : ℚ),
        -wallX ≤ (integrateWall pos vel dt).1.x ∧ (integrateWall pos vel dt).1.x ≤ wallX) := by
  refine ⟨?_, ?_, ?_⟩
  · intro pos vel dt hlo hhi hdt h4
    have hvx : 0 < vel.x := by
      rcases lt_or_le 0 vel.x with hv | hv
      · exact hv
      · have hprod : vel.x * dt ≤ 0 := mul_nonpos_iff.mpr (Or.inr ⟨hv, hdt⟩)
        linarith
    simp only [integrateWall, wallReflect, integrate]
    split_ifs with h1
    · exfalso
      norm_num [wallX, TABLE_W, BALL_R] at h1
    · refine ⟨rfl, ?_, hvx⟩
      simp only [abs_of_pos hvx]
  · intro pos vel dt hlo hhi hdt h4
    have hvx : vel.x < 0 := by
      rcases lt_or_le vel.x 0 with hv | hv
      · exact hv
      · have hprod : 0 ≤ vel.x * dt := mul_nonneg hv hdt
        linarith
    simp only [integrateWall, wallReflect, integrate]
    split_ifs with h1 h2
    · exfalso
      have hW : (-wallX : ℚ) ≤ wallX := by norm_num [wallX, TABLE_W, BALL_R]
      linarith
    · exfalso
      have hW : (-wallX : ℚ) ≤ wallX := by norm_num [wallX, TABLE_W, BALL_R]
      linarith
    · refine ⟨rfl, ?_, hvx⟩
      simp only [abs_of_neg hvx, neg_neg]
  · intro pos vel dt
    simp only [integrateWall, wallReflect, integrate]
    split_ifs with h1 h2 h3
    · exact ⟨le_refl _, by norm_num [wallX, TABLE_W, BALL_R]⟩
    · exact ⟨by norm_num [wallX, TABLE_W, BALL_R], le_refl _⟩
    · exact ⟨le_refl _, by norm_num [wallX, TABLE_W, BALL_R]⟩
    · exact ⟨not_lt.mp h3, not_lt.mp h1⟩

/-- C4 witness: a concrete step through the right wall is clamped to wallX
with the x velocity sign flipped at unchanged magnitude. -/
theorem C4_wall_reflection_witness :
    (integrateWall (Vec3.mk (14 / 5) 0 0) (Vec3.mk 2 0 1) (1 / 20)).1.x = wallX ∧
    (integrateWall (Vec3.mk (14 / 5) 0 0) (Vec3.mk 2 0 1) (1 / 20)).2.x = -(Vec3.mk 2 0 1).x ∧
    0 < (Vec3.mk 2 0 1).x :=
  C4_wall_reflection.1 (Vec3.mk (14 / 5) 0 0) (Vec3.mk 2 0 1) (1 / 20)
    (by norm_num [wallX, TABLE_W, BALL_R]) (by norm_num [wallX, TABLE_W, BALL_R])
    (by norm_num) (by norm_num [wallX, TABLE_W, BALL_R])

/-- C5: during playing with both counters at most 6, a scoring event
increments exactly the scorer's counter; if a counter then equals 7 the
phase becomes won with that side as winner, and if both stay at most 6 the
phase does not become won. -/
theorem C5_win_detection (st : AppState) (scorer : Side)
    (_hphase : st.phase = Phase.playing)
    (hp : st.playerScore ≤ 6) (ha : st.aiScore ≤ 6) :
    ((handleScoreEv scorer st).playerScore =
        if scorer = Side.player then st.playerScore + 1 else st.playerScore) ∧
    ((handleScoreEv scorer st).aiScore =
        if scorer = Side.ai then st.aiScore + 1 else st.aiScore) ∧
    ((handleScoreEv scorer st).playerScore = 7 →
        (handleScoreEv scorer st).phase = Phase.won ∧
        (handleScoreEv scorer st).winner = some Side.player) ∧
    ((handleScoreEv scorer st).aiScore = 7 →
        (handleScoreEv scorer st).phase = Phase.won ∧
        (handleScoreEv scorer st).winner = some Side.ai) ∧
    ((handleScoreEv scorer st).playerScore ≤ 6 → (handleScoreEv scorer st).aiScore ≤ 6 →
        (handleScoreEv scorer st).phase ≠ Phase.won) := by
  cases scorer <;>
    · simp only [handleScoreEv, WIN_SCORE]
      split_ifs with h1 h2 <;> refine ⟨by simp, by simp, ?_, ?_, ?_⟩ <;> intros <;> simp_all <;> omega

/-- C5 witness: from 6 to 7 for the human the phase becomes won with the
human recorded as winner. -/
theorem C5_win_detection_witness :
    (handleScoreEv Side.player (AppState.mk Phase.playing 6 0 none none (Vec3.mk 0 0 0) (Vec3.mk 0 0 1) false)).phase = Phase.won ∧
    (handleScoreEv Side.player (AppState.mk Phase.playing 6 0 none none (Vec3.mk 0 0 0) (Vec3.mk 0 0 1) false)).winner = some Side.player :=
  (C5_win_detection (AppState.mk Phase.playing 6 0 none none (Vec3.mk 0 0 0) (Vec3.mk 0 0 1) false)
    Side.player rfl (by norm_num) (by norm_num)).2.2.1 rfl

/-- Clamping is the identity inside the interval. -/
theorem clampQ_eq_self (lo hi x : ℚ) (h1 : lo ≤ x) (h2 : x ≤ hi) : clampQ lo hi x = x := by
  rw [clampQ, min_eq_right h2, max_eq_right h1]

/-- Clamping lands in the interval whenever it is nonempty. -/
theorem clampQ_bounds (lo hi x : ℚ) (h : lo ≤ hi) :
    lo ≤ clampQ lo hi x ∧ clampQ lo hi x ≤ hi := by
  refine ⟨le_max_left lo _, ?_⟩
  rw [clampQ]
  exact max_le h (min_le_left hi x)

/-- Every profile gain lies in the unit interval. -/
theorem lerp_bounds (d : Difficulty) : 0 < (DIFF d).lerp ∧ (DIFF d).lerp ≤ 1 := by
  cases d <;> norm_num [DIFF]

/-- With the ball and the paddle inside the clamp range and a unit-interval
gain, the pursuit update is pure exponential smoothing: the clamp is inert. -/
theorem aiStep_no_clamp (g b a : ℚ) (hb : |b| ≤ maxAX) (ha : |a| ≤ maxAX)
    (hg0 : 0 ≤ g) (hg1 : g ≤ 1) : aiStep g b a = a + (b - a) * g := by
  rw [abs_le] at hb ha
  rw [aiStep]
  apply clampQ_eq_self
  · rcases le_total a b with hab | hba
    · have h1 : 0 ≤ (b - a) * g := mul_nonneg (by linarith) hg0
      linarith
    · have h1 : (b - a) * 1 ≤ (b - a) * g := mul_le_mul_of_nonpos_left hg1 (by linarith)
      rw [mul_one] at h1
      linarith
  · rcases le_total a b with hab | hba
    · have h1 : (b - a) * g ≤ b - a := mul_le_of_le_one_right (by linarith) hg1
      linarith
    · have h1 : (b - a) * g ≤ 0 := mul_nonpos_iff.mpr (Or.inr ⟨by linarith, hg0⟩)
      linarith

/-- The pursuit update always lands inside the clamp range. -/
theorem aiStep_bounds (g b a : ℚ) : |aiStep g b a| ≤ maxAX := by
  rw [abs_le, aiStep]
  exact clampQ_bounds (-maxAX) maxAX (a + (b - a) * g)
    (by norm_num [maxAX, TABLE_W, PADDLE_W])

/-- All pursuit iterates stay inside the clamp range. -/
theorem aiIter_bounds (g b a : ℚ) (ha : |a| ≤ maxAX) : ∀ n, |aiIter g b a n| ≤ maxAX
  | 0 => ha
  | n + 1 => aiStep_bounds g b (aiIter g b a n)

/-- Under the no-clamp conditions the iterate satisfies the smoothing
recurrence exactly. -/
theorem aiIter_step (g b a : ℚ) (hb : |b| ≤ maxAX) (ha : |a| ≤ maxAX)
    (hg0 : 0 ≤ g) (hg1 : g ≤ 1) (n : ℕ) :
    aiIter g b a (n + 1) = aiIter g b a n + (b - aiIter g b a n) * g :=
  aiStep_no_clamp g b (aiIter g b a n) hb (aiIter_bounds g b a ha n) hg0 hg1

/-- Starting at or below the ball position, the pursuit never overshoots
above it. -/
theorem aiIter_le (g b a : ℚ) (hb : |b| ≤ maxAX) (ha : |a| ≤ maxAX)
    (hg0 : 0 ≤ g) (hg1 : g ≤ 1) (hab : a ≤ b) : ∀ n, aiIter g b a n ≤ b
  | 0 => hab
  | n + 1 => by
    have ih := aiIter_le g b a hb ha hg0 hg1 hab n
    rw [aiIter_step g b a hb ha hg0 hg1 n]
    linarith [mul_le_of_le_one_right (sub_nonneg.mpr ih) hg1]

/-- Starting at or above the ball position, the pursuit never overshoots
below it. -/
theorem aiIter_ge (g b a : ℚ) (hb : |b| ≤ maxAX) (ha : |a| ≤ maxAX)
    (hg0 : 0 ≤ g) (hg1 : g ≤ 1) (hba : b ≤ a) : ∀ n, b ≤ aiIter g b a n
  | 0 => hba
  | n + 1 => by
    have ih := aiIter_ge g b a hb ha hg0 hg1 hba n
    rw [aiIter_step g b a hb ha hg0 hg1 n]
    have h1 : (b - aiIter g b a n) * 1 ≤ (b - aiIter g b a n) * g :=
      mul_le_mul_of_nonpos_left hg1 (by linarith)
    rw [mul_one] at h1
    linarith

/-- The distance to a stationary ball never increases under the pursuit. -/
theorem aiIter_dist (g b a : ℚ) (hb : |b| ≤ maxAX) (ha : |a| ≤ maxAX)
    (hg0 : 0 ≤ g) (hg1 : g ≤ 1) (n : ℕ) :
    |b - aiIter g b a (n + 1)| ≤ |b - aiIter g b a n| := by
  rw [aiIter_step g b a hb ha hg0 hg1 n]
  have h : b - (aiIter g b a n + (b - aiIter g b a n) * g) =
      (b - aiIter g b a n) * (1 - g) := by ring
  rw [h, abs_mul, abs_of_nonneg (by linarith : (0 : ℚ) ≤ 1 - g)]
  exact mul_le_of_le_one_right (abs_nonneg _) (by linarith)

/-- C6: against a stationary ball x position inside the clamp range, every
profile gain makes the pursuit iterates approach monotonically: the
distance is non-increasing at every step and the offset never crosses to
the far side of the ball position. -/
theorem C6_pursuit_convergence (d : Difficulty) (b a : ℚ)
    (hb : |b| ≤ maxAX) (ha : |a| ≤ maxAX) (n : ℕ) :
    |b - aiIter (DIFF d).lerp b a (n + 1)| ≤ |b - aiIter (DIFF d).lerp b a n| ∧
    (a ≤ b → aiIter (DIFF d).lerp b a n ≤ b) ∧
    (b ≤ a → b ≤ aiIter (DIFF d).lerp b a n) := by
  obtain ⟨hg0, hg1⟩ := lerp_bounds d
  exact ⟨aiIter_dist (DIFF d).lerp b a hb ha (le_of_lt hg0) hg1 n,
    fun hab => aiIter_le (DIFF d).lerp b a hb ha (le_of_lt hg0) hg1 hab n,
    fun hba => aiIter_ge (DIFF d).lerp b a hb ha (le_of_lt hg0) hg1 hba n⟩

/-- C6 witness: one easy-gain pursuit step toward a ball at x = 1 from
offset 0 shrinks the distance and does not overshoot. -/
theorem C6_pursuit_convergence_witness :
    |1 - aiIter (DIFF Difficulty.easy).lerp 1 0 1| ≤ |1 - aiIter (DIFF Difficulty.easy).lerp 1 0 0| ∧
    aiIter (DIFF Difficulty.easy).lerp 1 0 0 ≤ 1 :=
  ⟨(C6_pursuit_convergence Difficulty.easy 1 0
      (by norm_num [maxAX, TABLE_W, PADDLE_W]) (by norm_num [maxAX, TABLE_W, PADDLE_W]) 0).1,
    (C6_pursuit_convergence Difficulty.easy 1 0
      (by norm_num [maxAX, TABLE_W, PADDLE_W]) (by norm_num [maxAX, TABLE_W, PADDLE_W]) 0).2.1
      (by norm_num)⟩

/-- C7: the ball reset centres the ball at the fixed height, launches at
speed exactly 3.5 toward the serving side, with the deflection angle being
the affine image of the raw random sample inside the quarter-radian band,
and clears the first-hit flag; every scoring event that schedules the
between-points reset (that is, every one whose outcome phase is between)
records the serve direction toward the side that conceded, and the match
start serves toward the human. The arguments s and c are the sine and
cosine of the drawn angle, so they satisfy s * s + c * c = 1 with c
positive on the band. -/
theorem C7_ball_reset :
    (∀ (s c : ℚ) (tp : Bool), s * s + c * c = 1 → 0 < c →
        (doReset s c tp).pos = Vec3.mk 0 (TABLE_H / 2 + BALL_R + 1 / 100) 0 ∧
        normSq (doReset s c tp).vel = sq BALL_LAUNCH_SPEED ∧
        (tp = true → 0 < (doReset s c tp).vel.z) ∧
        (tp = false → (doReset s c tp).vel.z < 0) ∧
        (doReset s c tp).firstHit = false) ∧
    (∀ r : ℚ, 0 ≤ r → r < 1 → -(1 / 4) ≤ launchAngle r ∧ launchAngle r < 1 / 4) ∧
    (∀ (st : AppState) (scorer : Side), (handleScoreEv scorer st).phase = Phase.between →
        (handleScoreEv scorer st).pending = some (decide (scorer = Side.ai))) ∧
    (∀ (st : AppState) (s c : ℚ),
        (startGame s c st).ball = (doReset s c true).pos ∧
        (startGame s c st).vel = (doReset s c true).vel ∧
        (startGame s c st).firstHit = false ∧ (startGame s c st).phase = Phase.playing) := by
  refine ⟨?_, ?_, ?_, ?_⟩
  · intro s c tp hsc hc
    refine ⟨rfl, ?_, ?_, ?_, rfl⟩
    · cases tp <;>
        · simp [doReset, normSq, sq, BALL_LAUNCH_SPEED]
          linear_combination (49 / 4 : ℚ) * hsc
    · intro htp
      subst htp
      simp [doReset, BALL_LAUNCH_SPEED]
      nlinarith [hc]
    · intro htp
      subst htp
      simp [doReset, BALL_LAUNCH_SPEED]
      nlinarith [hc]
  · intro r h0 h1
    simp only [launchAngle]
    constructor <;> nlinarith
  · intro st scorer hb
    cases scorer <;>
      · simp only [handleScoreEv, WIN_SCORE] at hb ⊢
        split_ifs at hb ⊢ <;> simp_all
  · intro st s c
    exact ⟨rfl, rfl, rfl, rfl⟩

/-- C7 witness: the straight serve toward the human at match start, the
angle band at sample 0, and the serve direction recorded when the trailing
side scores at 6 to 5: the reset is scheduled toward the human, who
conceded that point. -/
theorem C7_ball_reset_witness :
    (doReset 0 1 true).pos = Vec3.mk 0 (TABLE_H / 2 + BALL_R + 1 / 100) 0 ∧
    normSq (doReset 0 1 true).vel = sq BALL_LAUNCH_SPEED ∧
    0 < (doReset 0 1 true).vel.z ∧
    (doReset 0 1 true).firstHit = false ∧
    (-(1 / 4) ≤ launchAngle 0 ∧ launchAngle 0 < 1 / 4) ∧
    (handleScoreEv Side.ai
        (AppState.mk Phase.playing 6 5 none none (Vec3.mk 0 0 0) (Vec3.mk 0 0 1) false)).pending =
      some true := by
  refine ⟨(C7_ball_reset.1 0 1 true (by norm_num) (by norm_num)).1,
    (C7_ball_reset.1 0 1 true (by norm_num) (by norm_num)).2.1,
    (C7_ball_reset.1 0 1 true (by norm_num) (by norm_num)).2.2.1 rfl,
    (C7_ball_reset.1 0 1 true (by norm_num) (by norm_num)).2.2.2.2,
    C7_ball_reset.2.1 0 (by norm_num) (by norm_num),
    C7_ball_reset.2.2.1 (AppState.mk Phase.playing 6 5 none none (Vec3.mk 0 0 0) (Vec3.mk 0 0 1) false)
      Side.ai rfl⟩

/-- The first component of a wall reflection keeps the y coordinate. -/
theorem wallReflect_pos_y (pos vel : Vec3) : (wallReflect pos vel).1.y = pos.y := by
  simp only [wallReflect]
  split_ifs <;> rfl

/-- The second component of a wall reflection keeps the y coordinate. -/
theorem wallReflect_vel_y (pos vel : Vec3) : (wallReflect pos vel).2.y = vel.y := by
  simp only [wallReflect]
  split_ifs <;> rfl

/-- Integration plus wall keeps the position y coordinate of a frame. -/
theorem framePV_pos_y (i : FrameInput) (s : Scene) : (framePV i s).1.y = s.ballPos.y := by
  rw [framePV, integrateWall, wallReflect_pos_y]
  rfl

/-- Integration plus wall keeps the velocity y coordinate of a frame. -/
theorem framePV_vel_y (i : FrameInput) (s : Scene) : (framePV i s).2.y = s.ballVel.y := by
  rw [framePV, integrateWall, wallReflect_vel_y]

/-- A human hit response keeps a zero velocity y coordinate at zero. -/
theorem playerHitBody_vel_y (d : Difficulty) (fh : Bool) (nLen : ℚ) (vel : Vec3) (bx px : ℚ)
    (h : vel.y = 0) : (playerHitBody d fh nLen vel bx px).vel.y = 0 := by
  rw [playerHitBody]
  split_ifs
  · simp [firstHitSnap, smul, playerDeflect, h]
  · simp only [rallyGrow]
    split_ifs <;> simp [smul, playerDeflect, h]

/-- An AI hit response keeps a zero velocity y coordinate at zero. -/
theorem aiHitBody_vel_y (d : Difficulty) (fh : Bool) (nLen : ℚ) (vel : Vec3) (bx ax : ℚ)
    (h : vel.y = 0) : (aiHitBody d fh nLen vel bx ax).vel.y = 0 := by
  rw [aiHitBody]
  split_ifs
  · simp [firstHitSnap, smul, aiDeflect, h]
  · simp only [rallyGrow]
    split_ifs <;> simp [smul, aiDeflect, h]

/-- The human contact stage keeps the position y coordinate. -/
theorem applyPlayerHit_pos_y (d : Difficulty) (nLen : ℚ) (pos vel : Vec3) (px : ℚ) (fh : Bool) :
    (applyPlayerHit d nLen pos vel px fh).1.y = pos.y := by
  rw [applyPlayerHit]
  split_ifs <;> rfl

/-- The human contact stage keeps a zero velocity y coordinate at zero. -/
theorem applyPlayerHit_vel_y (d : Difficulty) (nLen : ℚ) (pos vel : Vec3) (px : ℚ) (fh : Bool)
    (h : vel.y = 0) : (applyPlayerHit d nLen pos vel px fh).2.1.y = 0 := by
  rw [applyPlayerHit]
  split_ifs
  · exact playerHitBody_vel_y d fh nLen vel pos.x px h
  · exact h

/-- The AI contact stage keeps the position y coordinate. -/
theorem applyAiHit_pos_y (d : Difficulty) (nLen : ℚ) (pos vel : Vec3) (ax : ℚ) (fh : Bool) :
    (applyAiHit d nLen pos vel ax fh).1.y = pos.y := by
  rw [applyAiHit]
  split_ifs <;> rfl

/-- The AI contact stage keeps a zero velocity y coordinate at zero. -/
theorem applyAiHit_vel_y (d : Difficulty) (nLen : ℚ) (pos vel : Vec3) (ax : ℚ) (fh : Bool)
    (h : vel.y = 0) : (applyAiHit d nLen pos vel ax fh).2.1.y = 0 := by
  rw [applyAiHit]
  split_ifs
  · exact aiHitBody_vel_y d fh nLen vel pos.x ax h
  · exact h

/-- The scoring stage commits the given ball position unchanged. -/
theorem scoreCheck_ballPos (s : Scene) (px ax : ℚ) (pos vel : Vec3) (fh : Bool) :
    (scoreCheck s px ax pos vel fh).1.ballPos = pos := by
  rw [scoreCheck]
  split_ifs <;> rfl

/-- The scoring stage commits the given ball velocity unchanged. -/
theorem scoreCheck_ballVel (s : Scene) (px ax : ℚ) (pos vel : Vec3) (fh : Bool) :
    (scoreCheck s px ax pos vel fh).1.ballVel = vel := by
  rw [scoreCheck]
  split_ifs <;> rfl

/-- C8 (amended): no stage of a simulation frame ever changes the vertical
position component, and a zero vertical velocity stays zero through every
stage; the reset pins the height to TABLE_H / 2 + BALL_R + 1 / 100 (table
top plus radius plus a small lift) with zero vertical velocity. -/
theorem C8_height_invariant :
    (∀ (d : Difficulty) (i : FrameInput) (s : Scene), s.ballVel.y = 0 →
        (frame d i s).1.ballPos.y = s.ballPos.y ∧ (frame d i s).1.ballVel.y = 0) ∧
    (∀ (s c : ℚ) (tp : Bool),
        (doReset s c tp).vel.y = 0 ∧ (doReset s c tp).pos.y = TABLE_H / 2 + BALL_R + 1 / 100) := by
  constructor
  · intro d i s hv
    rw [frame]
    split_ifs with hg
    · exact ⟨rfl, hv⟩
    · constructor
      · rw [scoreCheck_ballPos, frameAH, applyAiHit_pos_y, framePH, applyPlayerHit_pos_y,
          framePV_pos_y]
      · rw [scoreCheck_ballVel, frameAH]
        apply applyAiHit_vel_y
        rw [framePH]
        apply applyPlayerHit_vel_y
        rw [framePV_vel_y]
        exact hv
  · intro s c tp
    exact ⟨rfl, rfl⟩

/-- C8 counterexample: the reset height is not table height plus radius,
under either reading of table height (full box height or top surface
coordinate): the code adds a 0.01 lift. -/
theorem C8_height_value_mismatch :
    (doReset 0 1 true).pos.y = TABLE_H / 2 + BALL_R + 1 / 100 ∧
    (doReset 0 1 true).pos.y ≠ TABLE_H + BALL_R ∧
    (doReset 0 1 true).pos.y ≠ TABLE_H / 2 + BALL_R := by
  refine ⟨rfl, ?_, ?_⟩ <;> norm_num [doReset, TABLE_H, BALL_R]

/-- C8 witness: a concrete playing frame keeps the ball height and the zero
vertical velocity. -/
theorem C8_height_invariant_witness :
    (frame Difficulty.easy (FrameInput.mk (1 / 60) 0 1 1)
        (Scene.mk Phase.playing false (Vec3.mk 0 (47 / 200) 0) (Vec3.mk 0 0 (7 / 2)) 0 0 false)).1.ballPos.y =
      (Scene.mk Phase.playing false (Vec3.mk 0 (47 / 200) 0) (Vec3.mk 0 0 (7 / 2)) 0 0 false).ballPos.y ∧
    (frame Difficulty.easy (FrameInput.mk (1 / 60) 0 1 1)
        (Scene.mk Phase.playing false (Vec3.mk 0 (47 / 200) 0) (Vec3.mk 0 0 (7 / 2)) 0 0 false)).1.ballVel.y = 0 :=
  C8_height_invariant.1 Difficulty.easy (FrameInput.mk (1 / 60) 0 1 1)
    (Scene.mk Phase.playing false (Vec3.mk 0 (47 / 200) 0) (Vec3.mk 0 0 (7 / 2)) 0 0 false) rfl

/-- C9: each site that normalizes a velocity receives a provably non-zero
vector: both first-hit snaps act on a deflected velocity whose depth
component is non-zero thanks to the contact guard on the depth velocity,
and the reset launch velocity is non-zero for any actual angle. -/
theorem C9_no_zero_normalize :
    (∀ (vel : Vec3) (bx px : ℚ), 0 < vel.z → 0 < normSq (playerDeflect vel bx px)) ∧
    (∀ (vel : Vec3) (bx ax : ℚ), vel.z < 0 → 0 < normSq (aiDeflect vel bx ax)) ∧
    (∀ (s c : ℚ) (tp : Bool), s * s + c * c = 1 → 0 < normSq (doReset s c tp).vel) := by
  refine ⟨?_, ?_, ?_⟩
  · intro vel bx px hz
    simp only [normSq, playerDeflect, abs_of_pos hz]
    nlinarith [mul_self_nonneg (vel.x + (bx - px) / (PADDLE_W / 2) * 3),
      mul_self_nonneg vel.y, mul_pos hz hz]
  · intro vel bx ax hz
    simp only [normSq, aiDeflect, abs_of_neg hz]
    nlinarith [mul_self_nonneg (vel.x + (bx - ax) / (PADDLE_W / 2) * 2),
      mul_self_nonneg vel.y, mul_pos (neg_pos.mpr hz) (neg_pos.mpr hz)]
  · intro s c tp hsc
    cases tp <;>
      · simp [doReset, normSq, BALL_LAUNCH_SPEED]
        nlinarith [hsc]

/-- C9 witness: concrete inward-moving velocities at both contact sites and
a straight launch all have positive squared norm after deflection. -/
theorem C9_no_zero_normalize_witness :
    0 < normSq (playerDeflect (Vec3.mk 0 0 1) 0 0) ∧
    0 < normSq (aiDeflect (Vec3.mk 0 0 (-1)) 0 0) ∧
    0 < normSq (doReset 0 1 true).vel :=
  ⟨C9_no_zero_normalize.1 (Vec3.mk 0 0 1) 0 0 (by norm_num),
    C9_no_zero_normalize.2.1 (Vec3.mk 0 0 (-1)) 0 0 (by norm_num),
    C9_no_zero_normalize.2.2 0 1 true (by norm_num)⟩

/-- A frame with a pending score is a complete no-op and signals nothing. -/
theorem frame_scored_frozen (d : Difficulty) (i : FrameInput) (s : Scene)
    (h : s.scored = true) : frame d i s = (s, none) := by
  rw [frame, if_pos (Or.inr h)]

/-- Any number of frames after a score leave the state untouched. -/
theorem runFrames_scored_frozen (d : Difficulty) (is : List FrameInput) (s : Scene)
    (h : s.scored = true) : runFrames d is s = s := by
  induction is with
  | nil => rfl
  | cons i is ih =>
    show runFrames d is (frame d i s).1 = s
    rw [frame_scored_frozen d i s h]
    exact ih

/-- A scoring signal always comes with the scored guard raised. -/
theorem scoreCheck_some_scored (s : Scene) (px ax : ℚ) (pos vel : Vec3) (fh : Bool) (sc : Side)
    (h : (scoreCheck s px ax pos vel fh).2 = some sc) :
    (scoreCheck s px ax pos vel fh).1.scored = true := by
  rw [scoreCheck] at h ⊢
  split_ifs at h ⊢ <;> simp_all

/-- C10: once a scoring event has fired during playing, every subsequent
frame is a no-op on the whole simulation state (ball position, velocity,
paddle offsets, scores) and signals no further score, until the phase
re-enters playing, which is the only transition that clears the guard; a
frame outside playing is likewise a no-op, and any frame that signals a
score raises the guard. -/
theorem C10_single_score_per_point :
    (∀ (d : Difficulty) (i : FrameInput) (s : Scene), s.scored = true →
        frame d i s = (s, none)) ∧
    (∀ (d : Difficulty) (i : FrameInput) (s : Scene), s.phase ≠ Phase.playing →
        frame d i s = (s, none)) ∧
    (∀ (d : Difficulty) (is : List FrameInput) (s : Scene), s.scored = true →
        runFrames d is s = s) ∧
    (∀ (d : Difficulty) (i : FrameInput) (s : Scene) (sc : Side),
        (frame d i s).2 = some sc → (frame d i s).1.scored = true) ∧
    (∀ (prev : Phase) (b : Bool), prev ≠ Phase.playing →
        syncScored prev Phase.playing b = false) := by
  refine ⟨?_, ?_, ?_, ?_, ?_⟩
  · exact fun d i s h => frame_scored_frozen d i s h
  · intro d i s h
    rw [frame, if_pos (Or.inl h)]
  · exact fun d is s h => runFrames_scored_frozen d is s h
  · intro d i s sc h
    rw [frame] at h ⊢
    by_cases hg : s.phase ≠ Phase.playing ∨ s.scored = true
    · rw [if_pos hg] at h
      exact absurd h (by simp)
    · rw [if_neg hg] at h ⊢
      exact scoreCheck_some_scored _ _ _ _ _ _ sc h
  · intro prev b h
    rw [syncScored, if_pos ⟨h, rfl⟩]

/-- C10 witness: a concrete frozen frame after a score, and the guard being
cleared on re-entering playing. -/
theorem C10_single_score_per_point_witness :
    frame Difficulty.easy (FrameInput.mk (1 / 60) 0 1 1)
        (Scene.mk Phase.playing true (Vec3.mk 0 (47 / 200) 0) (Vec3.mk 0 0 (7 / 2)) 0 0 false) =
      (Scene.mk Phase.playing true (Vec3.mk 0 (47 / 200) 0) (Vec3.mk 0 0 (7 / 2)) 0 0 false, none) ∧
    syncScored Phase.between Phase.playing true = false :=
  ⟨C10_single_score_per_point.1 Difficulty.easy (FrameInput.mk (1 / 60) 0 1 1)
      (Scene.mk Phase.playing true (Vec3.mk 0 (47 / 200) 0) (Vec3.mk 0 0 (7 / 2)) 0 0 false) rfl,
    C10_single_score_per_point.2.2.2.2 Phase.between true (by decide)⟩

end MpirePingPong
